import Mathlib

/-!
Verification of the screenshot store service of the water-sim repository.

The store has three implementations in the tree:
* `src/server/index.js` (embedded here as `serverIndexSave`),
* `src/unnamed/part_005`, an Express server with stricter validation and
  corruption recovery (`part005Save`, `part005Get`),
* `src/screenshot-api/screenshots.ts` (`saveScreenshot`, `getScreenshots`,
  `clearAllScreenshots`).

The backing `screenshots.json` file is modelled by an explicit state
(`FileState` / `FileStateTS`); each handler is a pure function from the file
state and the request to the HTTP response and the resulting file state.
Clock and randomness (`Date.now()`, `Math.random().toString(36).substr(2, 9)`)
are passed in as explicit `now` / `rand` oracle arguments.  Timestamps are
carried as the epoch-millisecond value: `new Date(ms).toISOString()` is an
injective, order-preserving rendering of that value, and the handlers never
inspect a timestamp other than for equality or ordering.
-/

/-- A primitive JavaScript value as it can appear in a request-body field.
The handlers only distinguish strings, numbers and booleans (they test
presence, truthiness, `typeof x === "string"` and a string marker); numbers
are carried as integers, the only numeric values the handlers ever compare. -/
inductive JsPrim where
  | str (s : String)
  | num (n : Int)
  | boolean (b : Bool)
deriving DecidableEq

/-- JavaScript truthiness of a primitive: `""`, `0` and `false` are falsy. -/
def jsTruthy : JsPrim → Bool
  | .str s => !(s == "")
  | .num n => !(n == 0)
  | .boolean b => b

/-- Truthiness of a possibly absent value: `undefined` and `null` are falsy. -/
def jsTruthyOpt : Option JsPrim → Bool
  | none => false
  | some p => jsTruthy p

/-- Truthiness of a possibly absent number (`!robotId` in src/server/index.js):
absent, `null` and `0` are falsy. -/
def jsTruthyNum : Option Int → Bool
  | none => false
  | some n => !(n == 0)

/-- The `segmentData` object of a save request, restricted to the keys the
handlers read: `SegmentID` (src/unnamed/part_005) and `Water` / `Light`
(src/screenshot-api/screenshots.ts).  An absent key is `none`. -/
structure SegData where
  SegmentID : Option Int
  Water : Option Int
  Light : Option Int
deriving DecidableEq

/-- The JSON body of a save request: the four fields the handlers
destructure.  `none` models an absent or `null` field.  `position` is a JSON
array of numbers when present (a present non-array position, which
src/screenshot-api/screenshots.ts would also reject, is outside the embedded
input space). -/
structure SaveRequest where
  robotId : Option Int
  image : Option JsPrim
  segmentData : Option SegData
  position : Option (List Int)
deriving DecidableEq

/-- A persisted record in the shape written by src/server/index.js and
src/unnamed/part_005: `{ id, timestamp, robotId, image, segmentData }`.
`position` models an optional `position` key: these two variants never write
one (it is `none` in every record they create), but a record read back from
the file may carry one. -/
structure Screenshot where
  id : String
  timestamp : Nat
  robotId : Int
  image : JsPrim
  segmentData : SegData
  position : Option (List Int)
deriving DecidableEq

/-- A persisted record in the shape written by
src/screenshot-api/screenshots.ts: `{ id, timestamp, robotId, position,
water, light, image }`.  `water` and `light` are copied from
`segmentData.Water` / `segmentData.Light` and are absent (`none`) when those
keys are absent from the request. -/
structure ScreenshotTS where
  id : String
  timestamp : Nat
  robotId : Int
  position : List Int
  water : Option Int
  light : Option Int
  image : JsPrim
deriving DecidableEq

/-- The state of the backing screenshots.json file for the
src/server/index.js and src/unnamed/part_005 variants: absent, present with
content `JSON.parse` rejects, present with valid JSON that is not an array,
or present with an array of records. -/
inductive FileState where
  | absent
  | invalid
  | jsonNonArray
  | array (records : List Screenshot)
deriving DecidableEq

/-- The state of the backing file for the src/screenshot-api variant. -/
inductive FileStateTS where
  | absent
  | invalid
  | jsonNonArray
  | array (records : List ScreenshotTS)
deriving DecidableEq

/-- The record collection a file state holds; an absent or unreadable store
holds none. -/
def storeRecords : FileState → List Screenshot
  | .array l => l
  | _ => []

/-- The record collection a screenshot-api file state holds. -/
def tsRecords : FileStateTS → List ScreenshotTS
  | .array l => l
  | _ => []

/-- The `received` diagnostic of part_005's missing-fields 400 response,
restricted to its three presence booleans (`hasRobotId`, `hasImage`,
`hasSegmentData`); the remaining debug-only keys are omitted. -/
structure MissingDiag where
  hasRobotId : Bool
  hasImage : Bool
  hasSegmentData : Bool
deriving DecidableEq

/-- Response of the POST save endpoint of the server/index.js and part_005
variants: 200 with the new id, 400 with an error message (and, for
part_005's first check, the `received` diagnostic), or 500. -/
inductive SaveResp where
  | ok (id : String)
  | badRequest (error : String) (received : Option MissingDiag)
  | serverError
deriving DecidableEq

/-- Response of saveScreenshot in src/screenshot-api/screenshots.ts: 200
with the new id, 400 carrying the `missingFields` list, or 500. -/
inductive SaveRespTS where
  | ok (id : String)
  | badRequest (missingFields : List String)
  | serverError
deriving DecidableEq

/-- Response of the GET list endpoint of the server/index.js and part_005
variants. -/
inductive GetResp where
  | ok (records : List Screenshot)
  | serverError
deriving DecidableEq

/-- Response of getScreenshots in src/screenshot-api/screenshots.ts. -/
inductive GetRespTS where
  | ok (records : List ScreenshotTS)
  | serverError
deriving DecidableEq

/-- Response of clearAllScreenshots in src/screenshot-api/screenshots.ts. -/
inductive ClearResp where
  | success (message : String)
  | serverError
deriving DecidableEq

/-- One decimal digit character (`d` is only ever passed a value `< 10`). -/
def digitChar : Nat → Char
  | 0 => '0'
  | 1 => '1'
  | 2 => '2'
  | 3 => '3'
  | 4 => '4'
  | 5 => '5'
  | 6 => '6'
  | 7 => '7'
  | 8 => '8'
  | _ => '9'

/-- Decimal digits of `n`, most significant first; fuel-based so that it
unfolds by `rfl` (any fuel `> n` suffices, see `natToDecAux_eval`). -/
def natToDecAux : Nat → Nat → List Char
  | 0, _ => []
  | fuel + 1, n =>
    if n < 10 then [digitChar n]
    else natToDecAux fuel (n / 10) ++ [digitChar (n % 10)]

/-- The decimal rendering of `n`, as a JS template literal renders the
integer `Date.now()`. -/
def natToDec (n : Nat) : List Char := natToDecAux (n + 1) n

/-- The id every save handler builds, the template literal
`screenshot-${Date.now()}-${Math.random().toString(36).substr(2, 9)}`:
`now` is the `Date.now()` value and `rand` the random suffix. -/
def mkId (now : Nat) (rand : String) : String :=
  String.mk ("screenshot-".data ++ (natToDec now ++ ('-' :: rand.data)))

/-- Error message of the missing-field 400 responses. -/
def missingFieldsMsg : String := "Missing required fields"

/-- Error message of part_005's missing-SegmentID 400 response. -/
def missingSegmentIdMsg : String := "Invalid segmentData: missing SegmentID"

/-- Error message of part_005's non-string / empty image 400 response. -/
def invalidImageMsg : String := "Invalid image: must be a non-empty string"

/-- Error message of part_005's image-marker 400 response. -/
def invalidImageFormatMsg : String := "Invalid image format: must be base64 data URL"

/-- Success message of clearAllScreenshots. -/
def clearedMsg : String := "All screenshots cleared"

/-- The embedded-image marker part_005 requires of `image`. -/
def imageMarker : String := "data:image/"

/-- `String.prototype.startsWith`: does `s` begin with `mark`? -/
def strStartsWith (s mark : String) : Bool := mark.data.isPrefixOf s.data

/-- The POST /api/screenshots handler of src/server/index.js.  Its
missing-field check is `if (!robotId || !image || !segmentData)`, a
truthiness test, so `robotId = 0` is rejected as missing.  The startup code
creates the file, but a request served while the file is absent or
unparsable (readFileSync / JSON.parse throws), or whose parse is not an
array (`.push` then throws), ends in the catch block and answers 500 with
the file untouched. -/
def serverIndexSave (now : Nat) (rand : String) (st : FileState) (req : SaveRequest) :
    SaveResp × FileState :=
  if !jsTruthyNum req.robotId || !jsTruthyOpt req.image || req.segmentData.isNone then
    (.badRequest missingFieldsMsg none, st)
  else
    match req.robotId, req.image, req.segmentData, st with
    | some rid, some img, some sd, .array l =>
      let newScreenshot : Screenshot :=
        { id := mkId now rand, timestamp := now, robotId := rid,
          image := img, segmentData := sd, position := none }
      (.ok newScreenshot.id, .array (l ++ [newScreenshot]))
    | _, _, _, _ => (.serverError, st)

/-- The POST /api/screenshots handler of src/unnamed/part_005.  In source
order: the explicit missing-field check (`robotId === undefined || robotId
=== null`, `!image`, `!segmentData`) with its `received` diagnostic, the
`SegmentID` check (which accepts `0`), the `typeof image !== "string" ||
image.length === 0` check, the `data:image/` marker check; then the file is
read, an absent / unparsable / non-array store is reset to the empty array,
the new record is appended and the whole array written back. -/
def part005Save (now : Nat) (rand : String) (st : FileState) (req : SaveRequest) :
    SaveResp × FileState :=
  if req.robotId.isNone || !jsTruthyOpt req.image || req.segmentData.isNone then
    (.badRequest missingFieldsMsg
      (some { hasRobotId := req.robotId.isSome, hasImage := jsTruthyOpt req.image,
              hasSegmentData := req.segmentData.isSome }), st)
  else
    match req.robotId, req.image, req.segmentData with
    | some rid, some img, some sd =>
      if sd.SegmentID.isNone then
        (.badRequest missingSegmentIdMsg none, st)
      else
        match img with
        | .str s =>
          if s == "" then
            (.badRequest invalidImageMsg none, st)
          else if !(strStartsWith s imageMarker) then
            (.badRequest invalidImageFormatMsg none, st)
          else
            let base : List Screenshot := storeRecords st
            let newScreenshot : Screenshot :=
              { id := mkId now rand, timestamp := now, robotId := rid,
                image := .str s, segmentData := sd, position := none }
            (.ok newScreenshot.id, .array (base ++ [newScreenshot]))
        | _ => (.badRequest invalidImageMsg none, st)
    | _, _, _ => (.serverError, st)

/-- The GET /api/screenshots handler of src/unnamed/part_005: an absent file
answers `[]`, valid-JSON non-array content answers `[]` with a logged
warning, an array answers the records in stored order; content that
`JSON.parse` rejects throws into the catch block, which answers 500.  The
handler never writes. -/
def part005Get : FileState → GetResp
  | .absent => .ok []
  | .invalid => .serverError
  | .jsonNonArray => .ok []
  | .array l => .ok l

/-- `ensureScreenshotsFile` of src/screenshot-api/screenshots.ts: create the
file holding the empty JSON array when it does not exist. -/
def ensureScreenshotsFile : FileStateTS → FileStateTS
  | .absent => .array []
  | st => st

/-- Insert a record into an already timestamp-descending list, before the
first entry not newer than it. -/
def insertByTimestampDesc (a : ScreenshotTS) : List ScreenshotTS → List ScreenshotTS
  | [] => [a]
  | b :: l =>
    if b.timestamp ≤ a.timestamp then a :: b :: l
    else b :: insertByTimestampDesc a l

/-- The sort in getScreenshots, `sort((a, b) => new
Date(b.timestamp).getTime() - new Date(a.timestamp).getTime())`: the stable
(insertion) sort by timestamp descending. -/
def sortByTimestampDesc : List ScreenshotTS → List ScreenshotTS
  | [] => []
  | a :: l => insertByTimestampDesc a (sortByTimestampDesc l)

/-- The GET handler `getScreenshots` of src/screenshot-api/screenshots.ts:
ensure the file exists (creating the empty array when absent), parse it,
sort by timestamp descending, answer the array.  Content that `JSON.parse`
rejects, or that parses to a non-array (whose `.sort` then throws), falls
into the catch block and answers 500. -/
def getScreenshots (st : FileStateTS) : GetRespTS × FileStateTS :=
  match ensureScreenshotsFile st with
  | .array l => (.ok (sortByTimestampDesc l), .array l)
  | .invalid => (.serverError, .invalid)
  | .jsonNonArray => (.serverError, .jsonNonArray)
  | .absent => (.serverError, .absent)

/-- Field name pushed to `missingFields` for `robotId`. -/
def fieldRobotId : String := "robotId"

/-- Field name pushed to `missingFields` for `image`. -/
def fieldImage : String := "image"

/-- Field name pushed to `missingFields` for `segmentData`. -/
def fieldSegmentData : String := "segmentData"

/-- Field name pushed to `missingFields` for `position`. -/
def fieldPosition : String := "position (must be [x, y] array)"

/-- The validation of `saveScreenshot` in src/screenshot-api/screenshots.ts:
the `missingFields` list in the order the code pushes them.  `robotId` and
`image` are only tested against `undefined` / `null` (so `0` and the empty
string pass); `segmentData` for truthiness; `position` must be a 2-element
array. -/
def tsMissingFields (req : SaveRequest) : List String :=
  (if req.robotId.isNone then [fieldRobotId] else []) ++
  (if req.image.isNone then [fieldImage] else []) ++
  (if req.segmentData.isNone then [fieldSegmentData] else []) ++
  (match req.position with
   | some pos => if pos.length == 2 then [] else [fieldPosition]
   | none => [fieldPosition])

/-- The POST handler `saveScreenshot` of src/screenshot-api/screenshots.ts.
`ensureScreenshotsFile()` runs before validation, so an absent file is
created even when validation then fails.  On success the new record stores
`segmentData.Water` and `segmentData.Light` (the `segmentData` object itself
is not persisted) and the `position` array verbatim; a store that fails
`JSON.parse` (or parses to a non-array, whose `.push` throws) ends in the
catch block with a 500. -/
def saveScreenshot (now : Nat) (rand : String) (st : FileStateTS) (req : SaveRequest) :
    SaveRespTS × FileStateTS :=
  let st1 := ensureScreenshotsFile st
  if 0 < (tsMissingFields req).length then
    (.badRequest (tsMissingFields req), st1)
  else
    match req.robotId, req.image, req.segmentData, req.position, st1 with
    | some rid, some img, some sd, some pos, .array l =>
      let newScreenshot : ScreenshotTS :=
        { id := mkId now rand, timestamp := now, robotId := rid,
          position := pos, water := sd.Water, light := sd.Light, image := img }
      (.ok newScreenshot.id, .array (l ++ [newScreenshot]))
    | _, _, _, _, _ => (.serverError, st1)

/-- The DELETE handler `clearAllScreenshots` of
src/screenshot-api/screenshots.ts: unlink the file when it exists (the
resulting state is an absent file either way) and answer success. -/
def clearAllScreenshots (_st : FileStateTS) : ClearResp × FileStateTS :=
  (.success clearedMsg, .absent)

/-- Read a decimal digit string back to the number it denotes. -/
def ofDec (l : List Char) : Nat := l.foldl (fun a c => 10 * a + (c.toNat - 48)) 0

theorem digitChar_toNat (d : Nat) (h : d < 10) : (digitChar d).toNat = 48 + d := by
  interval_cases d <;> rfl

theorem digitChar_ne_dash (d : Nat) : digitChar d ≠ '-' := by
  unfold digitChar
  split <;> decide

theorem ofDec_append (l : List Char) (c : Char) :
    ofDec (l ++ [c]) = 10 * ofDec l + (c.toNat - 48) := by
  unfold ofDec
  rw [List.foldl_append]
  rfl

theorem natToDecAux_eval (fuel n : Nat) (h : n < fuel) :
    ofDec (natToDecAux fuel n) = n := by
  induction fuel generalizing n with
  | zero => omega
  | succ fuel ih =>
    rw [natToDecAux]
    by_cases h10 : n < 10
    · rw [if_pos h10]
      show 10 * 0 + ((digitChar n).toNat - 48) = n
      rw [digitChar_toNat n h10]
      omega
    · rw [if_neg h10, ofDec_append, ih (n / 10) (by omega), digitChar_toNat (n % 10) (by omega)]
      omega

theorem dash_not_mem_natToDecAux (fuel n : Nat) : '-' ∉ natToDecAux fuel n := by
  induction fuel generalizing n with
  | zero => simp [natToDecAux]
  | succ fuel ih =>
    rw [natToDecAux]
    by_cases h10 : n < 10
    · rw [if_pos h10]
      intro hmem
      rw [List.mem_singleton] at hmem
      exact digitChar_ne_dash n hmem.symm
    · rw [if_neg h10]
      intro hmem
      rcases List.mem_append.mp hmem with h1 | h2
      · exact ih (n / 10) h1
      · rw [List.mem_singleton] at h2
        exact digitChar_ne_dash (n % 10) h2.symm

theorem dash_not_mem_natToDec (n : Nat) : '-' ∉ natToDec n :=
  dash_not_mem_natToDecAux (n + 1) n

theorem natToDec_inj (m n : Nat) (h : natToDec m = natToDec n) : m = n := by
  calc m = ofDec (natToDec m) := (natToDecAux_eval (m + 1) m (Nat.lt_succ_self m)).symm
    _ = ofDec (natToDec n) := by rw [h]
    _ = n := natToDecAux_eval (n + 1) n (Nat.lt_succ_self n)

theorem append_dash_cancel (xs : List Char) :
    ∀ (ys as bs : List Char), '-' ∉ xs → '-' ∉ ys →
      xs ++ '-' :: as = ys ++ '-' :: bs → xs = ys ∧ as = bs := by
  induction xs with
  | nil =>
    intro ys as bs _ hy h
    cases ys with
    | nil => simpa using h
    | cons c ys =>
      rw [List.nil_append, List.cons_append, List.cons.injEq] at h
      obtain ⟨hc, _⟩ := h
      rw [← hc] at hy
      exact absurd (List.mem_cons_self _ _) hy
  | cons c xs ih =>
    intro ys as bs hx hy h
    cases ys with
    | nil =>
      rw [List.cons_append, List.nil_append, List.cons.injEq] at h
      obtain ⟨hc, _⟩ := h
      rw [hc] at hx
      exact absurd (List.mem_cons_self _ _) hx
    | cons d ys =>
      rw [List.cons_append, List.cons_append, List.cons.injEq] at h
      obtain ⟨hcd, h2⟩ := h
      have hx2 : '-' ∉ xs := fun hm => hx (List.mem_cons_of_mem _ hm)
      have hy2 : '-' ∉ ys := fun hm => hy (List.mem_cons_of_mem _ hm)
      obtain ⟨hxy, hab⟩ := ih ys as bs hx2 hy2 h2
      exact ⟨by rw [hcd, hxy], hab⟩

/-- `mkId` is injective in the (`Date.now()`, random-suffix) pair: two saves
produce the same id exactly when they drew the same millisecond value and
the same random suffix. -/
theorem mkId_inj (n₁ n₂ : Nat) (r₁ r₂ : String) (h : mkId n₁ r₁ = mkId n₂ r₂) :
    n₁ = n₂ ∧ r₁ = r₂ := by
  unfold mkId at h
  have h1 : "screenshot-".data ++ (natToDec n₁ ++ ('-' :: r₁.data))
      = "screenshot-".data ++ (natToDec n₂ ++ ('-' :: r₂.data)) := congrArg String.data h
  have h2 := List.append_cancel_left h1
  obtain ⟨hd, hr⟩ := append_dash_cancel (natToDec n₁) (natToDec n₂) r₁.data r₂.data
    (dash_not_mem_natToDec n₁) (dash_not_mem_natToDec n₂) h2
  exact ⟨natToDec_inj n₁ n₂ hd, String.ext hr⟩

theorem insertByTimestampDesc_perm (a : ScreenshotTS) (l : List ScreenshotTS) :
    List.Perm (insertByTimestampDesc a l) (a :: l) := by
  induction l with
  | nil => simp [insertByTimestampDesc]
  | cons b l ih =>
    rw [insertByTimestampDesc]
    by_cases hba : b.timestamp ≤ a.timestamp
    · rw [if_pos hba]
    · rw [if_neg hba]
      exact (ih.cons b).trans (List.Perm.swap a b l)

theorem mem_insertByTimestampDesc {x a : ScreenshotTS} {l : List ScreenshotTS} :
    x ∈ insertByTimestampDesc a l ↔ x = a ∨ x ∈ l := by
  rw [(insertByTimestampDesc_perm a l).mem_iff, List.mem_cons]

theorem insertByTimestampDesc_pairwise (a : ScreenshotTS) (l : List ScreenshotTS)
    (h : l.Pairwise (fun x y => y.timestamp ≤ x.timestamp)) :
    (insertByTimestampDesc a l).Pairwise (fun x y => y.timestamp ≤ x.timestamp) := by
  induction l with
  | nil => simp [insertByTimestampDesc]
  | cons b l ih =>
    rw [List.pairwise_cons] at h
    obtain ⟨hb, hl⟩ := h
    rw [insertByTimestampDesc]
    by_cases hba : b.timestamp ≤ a.timestamp
    · rw [if_pos hba, List.pairwise_cons]
      refine ⟨?_, List.pairwise_cons.mpr ⟨hb, hl⟩⟩
      intro x hx
      rcases List.mem_cons.mp hx with rfl | hxl
      · exact hba
      · exact le_trans (hb x hxl) hba
    · rw [if_neg hba, List.pairwise_cons]
      refine ⟨?_, ih hl⟩
      intro x hx
      rcases mem_insertByTimestampDesc.mp hx with rfl | hxl
      · omega
      · exact hb x hxl

theorem sortByTimestampDesc_perm (l : List ScreenshotTS) :
    List.Perm (sortByTimestampDesc l) l := by
  induction l with
  | nil => exact List.Perm.nil
  | cons a l ih =>
    rw [sortByTimestampDesc]
    exact (insertByTimestampDesc_perm a _).trans (ih.cons a)

theorem sortByTimestampDesc_pairwise (l : List ScreenshotTS) :
    (sortByTimestampDesc l).Pairwise (fun x y => y.timestamp ≤ x.timestamp) := by
  induction l with
  | nil => simp [sortByTimestampDesc]
  | cons a l ih =>
    rw [sortByTimestampDesc]
    exact insertByTimestampDesc_pairwise a _ ih

/-- Reduction of a part_005 save on a valid request: the response is 200
with the generated id, and the persisted array is the (possibly reset)
previous collection with the new record appended. -/
theorem part005Save_valid (now : Nat) (rand : String) (st : FileState)
    (req : SaveRequest) (rid : Int) (s : String) (sd : SegData) (sid : Int)
    (hrid : req.robotId = some rid)
    (himg : req.image = some (.str s))
    (hne : s ≠ "")
    (hmark : strStartsWith s imageMarker = true)
    (hsd : req.segmentData = some sd)
    (hsid : sd.SegmentID = some sid) :
    part005Save now rand st req =
      (.ok (mkId now rand),
       .array (storeRecords st ++
         [{ id := mkId now rand, timestamp := now, robotId := rid, image := .str s,
            segmentData := sd, position := none }])) := by
  unfold part005Save
  rw [hrid, himg, hsd]
  simp [jsTruthyOpt, jsTruthy, hne, hsid, hmark]

/-- Timestamp and random suffix used by the concrete scenarios. -/
def t0 : Nat := 1000

/-- Random suffix used by the concrete scenarios. -/
def rnd0 : String := "abcdefghi"

/-- A well-formed image payload. -/
def imgPngA : String := "data:image/png;base64,AAAA"

/-- A second well-formed image payload. -/
def imgPngB : String := "data:image/png;base64,BBBB"

/-- A well-formed save request whose robotId is the integer 0. -/
def reqRobot0 : SaveRequest :=
  { robotId := some 0, image := some (.str imgPngA),
    segmentData := some { SegmentID := some 3, Water := some 1, Light := some 1 },
    position := some [100, 200] }

/-- C1: a save request whose robotId is the integer 0 (and whose other
fields are valid) must be accepted and persisted with robotId 0, not
rejected as a missing-field failure.  The src/server/index.js handler
violates this: its truthiness check `!robotId` classifies 0 as missing and
answers 400 without writing anything, while the part_005 handler (whose
comment documents that robotId can be 0) accepts the identical request and
persists the record with robotId 0. -/
theorem C1_robotId_zero :
    (serverIndexSave t0 rnd0 (.array []) reqRobot0).1 = .badRequest missingFieldsMsg none ∧
    (serverIndexSave t0 rnd0 (.array []) reqRobot0).2 = .array [] ∧
    (part005Save t0 rnd0 (.array []) reqRobot0).1 = .ok (mkId t0 rnd0) ∧
    storeRecords (part005Save t0 rnd0 (.array []) reqRobot0).2
      = [{ id := mkId t0 rnd0, timestamp := t0, robotId := 0, image := .str imgPngA,
           segmentData := { SegmentID := some 3, Water := some 1, Light := some 1 },
           position := none }] := by decide

/-- A well-formed save request carrying a position. -/
def reqC2 : SaveRequest :=
  { robotId := some 2, image := some (.str imgPngB),
    segmentData := some { SegmentID := some 2, Water := some 0, Light := some 1 },
    position := some [7, 8] }

/-- C2 (counterexample): the claim that image, segmentData and position all
round-trip verbatim fails on the part_005 variant: a valid save submitting
position [7, 8] succeeds, but the record returned by the subsequent list
carries no position at all, so no field-for-field preservation of position
holds. -/
theorem C2_position_dropped :
    reqC2.position = some [7, 8] ∧
    (part005Save t0 rnd0 (.array []) reqC2).1 = .ok (mkId t0 rnd0) ∧
    part005Get (part005Save t0 rnd0 (.array []) reqC2).2
      = .ok [{ id := mkId t0 rnd0, timestamp := t0, robotId := 2, image := .str imgPngB,
               segmentData := { SegmentID := some 2, Water := some 0, Light := some 1 },
               position := none }] ∧
    (storeRecords (part005Save t0 rnd0 (.array []) reqC2).2).all
      (fun r => !(r.position == reqC2.position)) = true := by decide

/-- C2 (amended): after a valid part_005 save followed by list, the record
created from the request appears exactly once (its generated id being fresh)
with image, segmentData and robotId preserved verbatim; the submitted
position, however, is not persisted by this variant (the stored record
carries none), and the screenshot-api variant conversely persists position
verbatim but flattens segmentData into its water/light members. -/
theorem C2_roundtrip_amended (now : Nat) (rand : String) (l : List Screenshot)
    (req : SaveRequest) (rid : Int) (s : String) (sd : SegData) (sid : Int)
    (hrid : req.robotId = some rid)
    (himg : req.image = some (.str s))
    (hne : s ≠ "")
    (hmark : strStartsWith s imageMarker = true)
    (hsd : req.segmentData = some sd)
    (hsid : sd.SegmentID = some sid)
    (hfresh : ∀ r ∈ l, r.id ≠ mkId now rand) :
    ∃ r0 : Screenshot,
      (part005Save now rand (.array l) req).1 = .ok r0.id ∧
      part005Get (part005Save now rand (.array l) req).2 = .ok (l ++ [r0]) ∧
      r0.image = .str s ∧ r0.segmentData = sd ∧ r0.robotId = rid ∧
      r0.position = none ∧
      (l ++ [r0]).count r0 = 1 := by
  have hsave := part005Save_valid now rand (.array l) req rid s sd sid
    hrid himg hne hmark hsd hsid
  refine ⟨{ id := mkId now rand, timestamp := now, robotId := rid, image := .str s,
            segmentData := sd, position := none }, ?_, ?_, rfl, rfl, rfl, rfl, ?_⟩
  · rw [hsave]
  · rw [hsave]
    rfl
  · rw [List.count_append]
    have h0 : l.count
        { id := mkId now rand, timestamp := now, robotId := rid, image := .str s,
          segmentData := sd, position := none } = 0 :=
      List.count_eq_zero.mpr (fun hmem => hfresh _ hmem rfl)
    rw [h0]
    simp

/-- Witness for C2 (amended) at a concrete input. -/
theorem C2_roundtrip_amended_witness :
    ∃ r0 : Screenshot,
      (part005Save t0 rnd0 (.array []) reqC2).1 = .ok r0.id ∧
      part005Get (part005Save t0 rnd0 (.array []) reqC2).2 = .ok ([] ++ [r0]) ∧
      r0.image = .str imgPngB ∧
      r0.segmentData = { SegmentID := some 2, Water := some 0, Light := some 1 } ∧
      r0.robotId = 2 ∧ r0.position = none ∧ ([] ++ [r0]).count r0 = 1 :=
  C2_roundtrip_amended t0 rnd0 [] reqC2 2 imgPngB
    { SegmentID := some 2, Water := some 0, Light := some 1 } 2 rfl rfl (by decide)
    (by decide) rfl rfl (by simp)

/-- C3 (counterexample): a backing file whose content is not valid JSON
makes list() answer a 500 error response in both variants, not an empty
collection. -/
theorem C3_invalid_json_list_errors :
    part005Get .invalid = .serverError ∧ (getScreenshots .invalid).1 = .serverError := by
  decide

/-- C3 (amended): on list, the part_005 variant treats an absent file and
valid-JSON non-array content as an empty collection, but content that
JSON.parse rejects is answered with a 500 error response, not an empty
collection; the screenshot-api variant answers 500 for both corrupted
shapes. -/
theorem C3_list_corruption_amended :
    part005Get .jsonNonArray = .ok [] ∧
    part005Get .absent = .ok [] ∧
    part005Get .invalid = .serverError ∧
    (getScreenshots .invalid).1 = .serverError ∧
    (getScreenshots .jsonNonArray).1 = .serverError := by decide

/-- A save request with no image. -/
def reqNoImage : SaveRequest :=
  { robotId := some 1, image := none,
    segmentData := some { SegmentID := some 1, Water := some 0, Light := some 0 },
    position := some [1, 2] }

/-- C4: a save whose validation fails because image or segmentData is
missing answers a 400 and leaves the persisted collection unchanged: the
part_005 handler returns with the file state untouched (validation precedes
any file access), and the screenshot-api handler leaves the record
collection unchanged (its ensureScreenshotsFile, which runs first, at most
materialises an absent file as the empty array, changing no record count). -/
theorem C4_validation_failure_no_write (now : Nat) (rand : String) (st : FileState)
    (stT : FileStateTS) (req : SaveRequest)
    (h : req.image = none ∨ req.segmentData = none) :
    (∃ e d, (part005Save now rand st req).1 = .badRequest e d) ∧
    (part005Save now rand st req).2 = st ∧
    (∃ fields, (saveScreenshot now rand stT req).1 = .badRequest fields) ∧
    tsRecords (saveScreenshot now rand stT req).2 = tsRecords stT := by
  have hcond : (req.robotId.isNone || !jsTruthyOpt req.image || req.segmentData.isNone) = true := by
    rcases h with h | h <;> simp [h, jsTruthyOpt]
  have hmem : fieldImage ∈ tsMissingFields req ∨ fieldSegmentData ∈ tsMissingFields req := by
    rcases h with h | h
    · left
      unfold tsMissingFields
      rw [h]
      simp
    · right
      unfold tsMissingFields
      rw [h]
      simp
  have hlen : 0 < (tsMissingFields req).length := by
    rcases hmem with m | m <;> exact List.length_pos.mpr (List.ne_nil_of_mem m)
  have hp : part005Save now rand st req
      = (.badRequest missingFieldsMsg
          (some { hasRobotId := req.robotId.isSome, hasImage := jsTruthyOpt req.image,
                  hasSegmentData := req.segmentData.isSome }), st) := by
    unfold part005Save
    simp [hcond]
  have hq : saveScreenshot now rand stT req
      = (.badRequest (tsMissingFields req), ensureScreenshotsFile stT) := by
    unfold saveScreenshot
    rw [if_pos hlen]
  refine ⟨⟨missingFieldsMsg, _, by rw [hp]⟩, by rw [hp], ⟨tsMissingFields req, by rw [hq]⟩, ?_⟩
  rw [hq]
  cases stT <;> rfl

/-- Witness for C4 at a concrete input. -/
theorem C4_validation_failure_no_write_witness :
    (∃ e d, (part005Save t0 rnd0 (.array []) reqNoImage).1 = .badRequest e d) ∧
    (part005Save t0 rnd0 (.array []) reqNoImage).2 = .array [] ∧
    (∃ fields, (saveScreenshot t0 rnd0 (.array []) reqNoImage).1 = .badRequest fields) ∧
    tsRecords (saveScreenshot t0 rnd0 (.array []) reqNoImage).2 = tsRecords (.array []) :=
  C4_validation_failure_no_write t0 rnd0 (.array []) (.array []) reqNoImage (Or.inl rfl)

/-- Random suffix behind the stored record of the C5 scenarios. -/
def rnd1 : String := "xxxxxxxxx"

/-- A third well-formed image payload. -/
def imgPngC : String := "data:image/png;base64,CCCC"

/-- A valid save request used in the C5 and C8 scenarios. -/
def reqC5 : SaveRequest :=
  { robotId := some 5, image := some (.str imgPngC),
    segmentData := some { SegmentID := some 5, Water := some 0, Light := some 0 },
    position := none }

/-- A store holding one record whose id was built from the same
(Date.now(), random-suffix) pair the next save will draw. -/
def collidingStore : List Screenshot :=
  [{ id := mkId t0 rnd0, timestamp := 900, robotId := 5, image := .str imgPngC,
     segmentData := { SegmentID := some 5, Water := some 0, Light := some 0 },
     position := none }]

/-- C5 (counterexample): the id a valid save returns is not always distinct
from every stored id: no handler performs a uniqueness check, and nothing
prevents the (Date.now(), random-suffix) pair of a save from reproducing the
pair behind a stored id, in which case the returned id equals an id already
in the store. -/
theorem C5_id_collision :
    (part005Save t0 rnd0 (.array collidingStore) reqC5).1 = .ok (mkId t0 rnd0) ∧
    (collidingStore.map Screenshot.id).contains (mkId t0 rnd0) = true := by decide

/-- C5 (amended): the id returned by a valid save is
screenshot-<Date.now()>-<suffix>, and it is distinct from the id of every
record already in the store provided the (Date.now(), suffix) pair drawn by
this save differs from the pair each stored id was built from; mkId is
injective in that pair (mkId_inj), so a pair collision is the only way a
save can reproduce a stored id. -/
theorem C5_id_unique_for_fresh_pair (now : Nat) (rand : String) (l : List Screenshot)
    (req : SaveRequest) (rid : Int) (s : String) (sd : SegData) (sid : Int)
    (hrid : req.robotId = some rid)
    (himg : req.image = some (.str s))
    (hne : s ≠ "")
    (hmark : strStartsWith s imageMarker = true)
    (hsd : req.segmentData = some sd)
    (hsid : sd.SegmentID = some sid)
    (hl : ∀ r ∈ l, ∃ p : Nat × String, r.id = mkId p.1 p.2 ∧ p ≠ (now, rand)) :
    (part005Save now rand (.array l) req).1 = .ok (mkId now rand) ∧
    ∀ r ∈ l, r.id ≠ mkId now rand := by
  constructor
  · rw [part005Save_valid now rand (.array l) req rid s sd sid hrid himg hne hmark hsd hsid]
  · intro r hr hcontra
    obtain ⟨p, hp, hpne⟩ := hl r hr
    rw [hp] at hcontra
    obtain ⟨h1, h2⟩ := mkId_inj p.1 now p.2 rand hcontra
    exact hpne (Prod.ext_iff.mpr ⟨h1, h2⟩)

/-- A store whose single record was built from a different
(Date.now(), random-suffix) pair. -/
def freshStore : List Screenshot :=
  [{ id := mkId 900 rnd1, timestamp := 900, robotId := 5, image := .str imgPngC,
     segmentData := { SegmentID := some 5, Water := some 0, Light := some 0 },
     position := none }]

/-- Witness for C5 (amended) at a concrete input. -/
theorem C5_id_unique_for_fresh_pair_witness :
    (part005Save t0 rnd0 (.array freshStore) reqC5).1 = .ok (mkId t0 rnd0) ∧
    ∀ r ∈ freshStore, r.id ≠ mkId t0 rnd0 :=
  C5_id_unique_for_fresh_pair t0 rnd0 freshStore reqC5 5 imgPngC
    { SegmentID := some 5, Water := some 0, Light := some 0 } 5 rfl rfl (by decide)
    (by decide) rfl rfl
    (fun r hr => by
      simp only [freshStore, List.mem_singleton] at hr
      subst hr
      exact ⟨(900, rnd1), rfl, by decide⟩)

/-- C6: for every store state, clear() succeeds (whether or not the backing
file exists: the handler unlinks an existing file and is a no-op otherwise,
answering success in both cases) and a subsequent list() returns the empty
collection, getScreenshots recreating the file empty. -/
theorem C6_clear_then_list (st : FileStateTS) :
    (clearAllScreenshots st).1 = .success clearedMsg ∧
    (getScreenshots (clearAllScreenshots st).2).1 = .ok [] :=
  ⟨rfl, rfl⟩

/-- C7: the screenshot-api list() answers the stored records sorted by
timestamp descending: on a well-formed store the response is the stable
timestamp-descending sort of the records, which is pairwise descending in
timestamp (so each record's timestamp is at least that of every later one)
and a permutation of the stored collection. -/
theorem C7_list_sorted_desc (l : List ScreenshotTS) :
    (getScreenshots (.array l)).1 = .ok (sortByTimestampDesc l) ∧
    (sortByTimestampDesc l).Pairwise (fun a b => b.timestamp ≤ a.timestamp) ∧
    List.Perm (sortByTimestampDesc l) l :=
  ⟨rfl, sortByTimestampDesc_pairwise l, sortByTimestampDesc_perm l⟩

/-- C8: a valid save issued while the backing content is corrupted (content
JSON.parse rejects, or valid JSON that is not an array) does not fail: the
part_005 handler resets its base collection to empty, appends the new
record, and persists an array holding exactly that one record. -/
theorem C8_save_on_corrupted_store (now : Nat) (rand : String) (st : FileState)
    (req : SaveRequest) (rid : Int) (s : String) (sd : SegData) (sid : Int)
    (hst : st = .invalid ∨ st = .jsonNonArray)
    (hrid : req.robotId = some rid)
    (himg : req.image = some (.str s))
    (hne : s ≠ "")
    (hmark : strStartsWith s imageMarker = true)
    (hsd : req.segmentData = some sd)
    (hsid : sd.SegmentID = some sid) :
    (part005Save now rand st req).1 = .ok (mkId now rand) ∧
    (part005Save now rand st req).2
      = .array [{ id := mkId now rand, timestamp := now, robotId := rid,
                  image := .str s, segmentData := sd, position := none }] := by
  have hsave := part005Save_valid now rand st req rid s sd sid hrid himg hne hmark hsd hsid
  rcases hst with rfl | rfl <;> rw [hsave] <;> exact ⟨rfl, rfl⟩

/-- Witness for C8 at a concrete input. -/
theorem C8_save_on_corrupted_store_witness :
    (part005Save t0 rnd0 .invalid reqC5).1 = .ok (mkId t0 rnd0) ∧
    (part005Save t0 rnd0 .invalid reqC5).2
      = .array [{ id := mkId t0 rnd0, timestamp := t0, robotId := 5,
                  image := .str imgPngC,
                  segmentData := { SegmentID := some 5, Water := some 0, Light := some 0 },
                  position := none }] :=
  C8_save_on_corrupted_store t0 rnd0 .invalid reqC5 5 imgPngC
    { SegmentID := some 5, Water := some 0, Light := some 0 } 5 (Or.inl rfl) rfl rfl
    (by decide) (by decide) rfl rfl

/-- Reduction of a part_005 save whose image is falsy (absent, empty string,
zero, or false) while robotId and segmentData are present: the first
missing-field check fires, with a diagnostic showing image as the missing
field. -/
theorem part005Save_falsy_image (now : Nat) (rand : String) (st : FileState)
    (req : SaveRequest) (rid : Int) (sd : SegData)
    (hrid : req.robotId = some rid)
    (hsd : req.segmentData = some sd)
    (hfalsy : jsTruthyOpt req.image = false) :
    part005Save now rand st req
      = (.badRequest missingFieldsMsg
          (some { hasRobotId := true, hasImage := false, hasSegmentData := true }), st) := by
  unfold part005Save
  rw [hrid, hsd, hfalsy]
  simp

/-- Reduction of a part_005 save whose image is a truthy non-string while
the other fields are valid: the typeof check answers the invalid-image 400. -/
theorem part005Save_nonstring_image (now : Nat) (rand : String) (st : FileState)
    (req : SaveRequest) (rid : Int) (sd : SegData) (sid : Int) (p : JsPrim)
    (hrid : req.robotId = some rid)
    (hsd : req.segmentData = some sd)
    (hsid : sd.SegmentID = some sid)
    (himg : req.image = some p)
    (htruthy : jsTruthy p = true)
    (hnstr : ∀ s : String, p ≠ .str s) :
    part005Save now rand st req = (.badRequest invalidImageMsg none, st) := by
  unfold part005Save
  rw [hrid, hsd, himg]
  cases p with
  | str s => exact absurd rfl (hnstr s)
  | num n =>
    simp only [jsTruthyOpt, jsTruthy] at htruthy
    simp [jsTruthyOpt, jsTruthy, htruthy, hsid]
  | boolean b =>
    simp only [jsTruthyOpt, jsTruthy] at htruthy
    simp [jsTruthyOpt, jsTruthy, htruthy, hsid]

/-- Reduction of a part_005 save whose image is a non-empty string that
lacks the data:image/ marker, the other fields being valid: the marker check
answers the invalid-format 400. -/
theorem part005Save_unmarked_image (now : Nat) (rand : String) (st : FileState)
    (req : SaveRequest) (rid : Int) (sd : SegData) (sid : Int) (s : String)
    (hrid : req.robotId = some rid)
    (hsd : req.segmentData = some sd)
    (hsid : sd.SegmentID = some sid)
    (himg : req.image = some (.str s))
    (hne : s ≠ "")
    (hmark : strStartsWith s imageMarker = false) :
    part005Save now rand st req = (.badRequest invalidImageFormatMsg none, st) := by
  unfold part005Save
  rw [hrid, hsd, himg]
  simp [jsTruthyOpt, jsTruthy, hne, hsid, hmark]

/-- The empty image payload. -/
def blankImage : String := ""

/-- A request whose image is the empty string but whose other fields are
valid. -/
def reqEmptyImage : SaveRequest :=
  { robotId := some 1, image := some (.str blankImage),
    segmentData := some { SegmentID := some 1, Water := some 0, Light := some 0 },
    position := some [3, 4] }

/-- C9 (counterexample): the screenshot-api saveScreenshot only rejects an
absent (undefined or null) image: a save whose image is the empty string —
neither non-empty nor bearing the data:image/ marker — is accepted with 200
and its record is persisted, so no validation error is returned and a write
occurs. -/
theorem C9_ts_accepts_empty_image :
    blankImage.length = 0 ∧
    reqEmptyImage.image = some (.str blankImage) ∧
    (saveScreenshot t0 rnd0 (.array []) reqEmptyImage).1 = .ok (mkId t0 rnd0) ∧
    tsRecords (saveScreenshot t0 rnd0 (.array []) reqEmptyImage).2
      = [{ id := mkId t0 rnd0, timestamp := t0, robotId := 1, position := [3, 4],
           water := some 0, light := some 0, image := .str blankImage }] := by decide

/-- C9 (amended): the part_005 variant enforces the full image contract:
with robotId and segmentData well-formed, a request whose image is missing,
falsy (empty string, zero, false), a non-string, or a string without the
data:image/ marker is answered with a 400 identifying the image problem
(the missing-field diagnostic with hasImage false, the invalid-image
message, or the invalid-format message) and the file state is untouched;
the screenshot-api variant instead rejects only an absent image. -/
theorem C9_part005_image_validation (now : Nat) (rand : String) (st : FileState)
    (req : SaveRequest) (rid sid : Int) (sd : SegData)
    (hrid : req.robotId = some rid)
    (hsd : req.segmentData = some sd)
    (hsid : sd.SegmentID = some sid)
    (himg : req.image = none ∨
      ∃ p, req.image = some p ∧
        ∀ s : String, p = .str s → s = "" ∨ strStartsWith s imageMarker = false) :
    ((part005Save now rand st req).1 = .badRequest missingFieldsMsg
        (some { hasRobotId := true, hasImage := false, hasSegmentData := true }) ∨
     (part005Save now rand st req).1 = .badRequest invalidImageMsg none ∨
     (part005Save now rand st req).1 = .badRequest invalidImageFormatMsg none) ∧
    (part005Save now rand st req).2 = st := by
  rcases himg with h | ⟨p, hp, hbad⟩
  · have heq := part005Save_falsy_image now rand st req rid sd hrid hsd (by rw [h]; rfl)
    rw [heq]
    exact ⟨Or.inl rfl, rfl⟩
  · cases p with
    | str s =>
      rcases hbad s rfl with hs | hm
      · subst hs
        have heq := part005Save_falsy_image now rand st req rid sd hrid hsd (by rw [hp]; rfl)
        rw [heq]
        exact ⟨Or.inl rfl, rfl⟩
      · by_cases hse : s = ""
        · subst hse
          have heq := part005Save_falsy_image now rand st req rid sd hrid hsd (by rw [hp]; rfl)
          rw [heq]
          exact ⟨Or.inl rfl, rfl⟩
        · have heq := part005Save_unmarked_image now rand st req rid sd sid s
            hrid hsd hsid hp hse hm
          rw [heq]
          exact ⟨Or.inr (Or.inr rfl), rfl⟩
    | num n =>
      by_cases hn : n = 0
      · subst hn
        have heq := part005Save_falsy_image now rand st req rid sd hrid hsd (by rw [hp]; rfl)
        rw [heq]
        exact ⟨Or.inl rfl, rfl⟩
      · have heq := part005Save_nonstring_image now rand st req rid sd sid (.num n)
          hrid hsd hsid hp (by simp [jsTruthy, hn]) (fun s h => JsPrim.noConfusion h)
        rw [heq]
        exact ⟨Or.inr (Or.inl rfl), rfl⟩
    | boolean b =>
      cases b with
      | false =>
        have heq := part005Save_falsy_image now rand st req rid sd hrid hsd (by rw [hp]; rfl)
        rw [heq]
        exact ⟨Or.inl rfl, rfl⟩
      | true =>
        have heq := part005Save_nonstring_image now rand st req rid sd sid (.boolean true)
          hrid hsd hsid hp rfl (fun s h => JsPrim.noConfusion h)
        rw [heq]
        exact ⟨Or.inr (Or.inl rfl), rfl⟩

/-- A non-empty image payload lacking the data:image/ marker. -/
def junkImage : String := "nonsense"

/-- A request whose image is a non-empty string without the marker. -/
def reqJunkImage : SaveRequest :=
  { robotId := some 1, image := some (.str junkImage),
    segmentData := some { SegmentID := some 1, Water := some 0, Light := some 0 },
    position := some [1, 2] }

/-- Witness for C9 (amended) at a concrete input. -/
theorem C9_part005_image_validation_witness :
    ((part005Save t0 rnd0 (.array []) reqJunkImage).1 = .badRequest missingFieldsMsg
        (some { hasRobotId := true, hasImage := false, hasSegmentData := true }) ∨
     (part005Save t0 rnd0 (.array []) reqJunkImage).1 = .badRequest invalidImageMsg none ∨
     (part005Save t0 rnd0 (.array []) reqJunkImage).1 = .badRequest invalidImageFormatMsg none) ∧
    (part005Save t0 rnd0 (.array []) reqJunkImage).2 = .array [] :=
  C9_part005_image_validation t0 rnd0 (.array []) reqJunkImage 1 1
    { SegmentID := some 1, Water := some 0, Light := some 0 } rfl rfl rfl
    (Or.inr ⟨.str junkImage, rfl, fun s hs => by
      cases hs
      exact Or.inr (by decide)⟩)

/-- C10: getScreenshots called while the backing file is absent creates the
file holding the empty JSON array before answering the empty collection, so
a subsequent read sees an existing, well-formed empty store. -/
theorem C10_get_creates_empty_store :
    getScreenshots .absent = (.ok [], .array []) ∧
    getScreenshots (.array []) = (.ok [], .array []) := by decide
